import Mathlib

/-!
Shallow embedding of `src/worker.go` from Shop2market/goworker.

The worker pulls jobs from an intake channel, runs a registered work
function on each, and reports outcomes to a Redis-like store via a
connection that buffers commands (`Send`) until an explicit `Flush`.
We model a connection as the ordered trace of `Send`/`Flush` events it
accumulated, and the store as maps for string keys, integer counters
and lists; buffered commands take effect only at a flush, and commands
left unflushed when a connection is returned to the pool are discarded.

External collaborators (the `encoding/json` marshaller, `debug.Stack`,
the connection pool, clock) are oracles collected in `Env`; the worker
functions themselves are translated line by line from `worker.go`.
-/

/-- Package-level settings of goworker; `worker.go` reads
`workerSettings.Namespace` to prefix every store key. -/
structure WorkerSettings where
  Namespace : String

/-- `Payload` of a job: the work-function identifier (`Class`) and the
argument list.  Arguments are opaque `interface\x7b\x7d` values in Go; the
worker only ever passes them through or renders them with `%v`, so we
model each as its rendered string. -/
structure Payload where
  Class : String
  Args : List String
deriving DecidableEq, Repr

/-- `Job` from the repository: target queue plus payload. -/
structure Job where
  Queue : String
  Payload : Payload
deriving DecidableEq, Repr

/-- The `work` record serialized under the heartbeat key by
`worker.start` (fields `Queue`, `RunAt`, `Payload`). -/
structure work where
  Queue : String
  RunAt : Nat
  Payload : Payload
deriving DecidableEq, Repr

/-- `WorkerError` from `worker.go`: a message plus a captured stack
trace, produced by `NewWorkerError` when a panic is recovered. -/
structure WorkerError where
  message : String
  Backtrace : List String
deriving DecidableEq, Repr

/-- `NewWorkerError(message, backtrace)` from `worker.go`. -/
def NewWorkerError (message : String) (backtrace : List String) : WorkerError :=
  { message := message, Backtrace := backtrace }

/-- A Go `error` value as the worker sees it: either a `*WorkerError`
(the only concrete error type `worker.go` inspects, via the type switch
in `fail`) or any other error, observable only through `Error()`. -/
inductive GoError
  | workerError (e : WorkerError)
  | plain (msg : String)
deriving DecidableEq, Repr

/-- `err.Error()`: `WorkerError.Error` returns the stored message. -/
def GoError.Error : GoError → String
  | .workerError e => e.message
  | .plain msg => msg

/-- The `failure` record appended to the `<ns>failed` list by
`worker.fail`.  The `Worker` field is the worker value, serialized (via
`worker.MarshalJSON`) as its string rendering. -/
structure failure where
  FailedAt : Nat
  Payload : Payload
  Exception : String
  Error : String
  Backtrace : List String
  Worker : String
  Queue : String
deriving DecidableEq, Repr

/-- Modelled from the spec: the `process` type lives outside `src/`
(only `worker.go` is given).  The spec describes a Worker Identity as
an opaque string, unique per worker, immutable for its lifetime, and a
dedicated stringification operation on it used as a store-key
component; we keep exactly that. -/
structure process where
  id : String
deriving DecidableEq, Repr

/-- Modelled from the spec: `process.String()` renders the worker
identity used in store keys and log lines. -/
def process.String (p : process) : String := p.id

/-- `worker` from `worker.go`: a struct embedding `process`. -/
structure worker where
  process : process
deriving DecidableEq, Repr

/-- The string rendering of a worker.  Go selects the promoted
`String()` method of the embedded `process` both for explicit calls and
when `fmt` formats a `*worker` with `%s` (the `fmt.Stringer` path), so
a `%s` of `w` and `w.process.String()` go through the same function. -/
def worker.String (w : worker) : String := w.process.String

/-- Commands `worker.go` buffers on a connection with `conn.Send`. -/
inductive RedisCmd
  | set (key val : String)
  | del (key : String)
  | rpush (key val : String)
  | incr (key : String)
  | markNotBusy (identity : String)
deriving DecidableEq, Repr

/-- One event on a connection: a buffered command or a flush. -/
inductive ConnEvent
  | send (cmd : RedisCmd)
  | flush
deriving DecidableEq, Repr

/-- A `RedisConn` observed as the ordered trace of its events. -/
abbrev RedisConn := List ConnEvent

/-- `conn.Send(cmd)` appends a buffered command to the trace. -/
def RedisConn.Send (conn : RedisConn) (cmd : RedisCmd) : RedisConn :=
  conn ++ [ConnEvent.send cmd]

/-- `conn.Flush()` appends a flush to the trace (its network error is
outside the model; `worker.go` never branches on it). -/
def RedisConn.Flush (conn : RedisConn) : RedisConn :=
  conn ++ [ConnEvent.flush]

/-- The store: string keys, integer counters and lists, as used by the
`SET`/`DEL`, `INCR` and `RPUSH` commands of `worker.go`. -/
structure RedisState where
  strings : String → Option String
  counters : String → Int
  lists : String → List String

/-- Effect of one command once it reaches the store. `markNotBusy` is
modelled from the spec (a worker-level bookkeeping step); it touches
none of the keys, counters or lists the worker reports through. -/
def applyCmd (s : RedisState) : RedisCmd → RedisState
  | .set k v => { s with strings := fun k2 => if k2 = k then some v else s.strings k2 }
  | .del k => { s with strings := fun k2 => if k2 = k then none else s.strings k2 }
  | .rpush k v => { s with lists := fun k2 => if k2 = k then s.lists k2 ++ [v] else s.lists k2 }
  | .incr k => { s with counters := fun k2 => if k2 = k then s.counters k2 + 1 else s.counters k2 }
  | .markNotBusy _ => s

/-- Replay a connection trace against the store: `send` buffers, `flush`
applies the buffer in order; an unflushed tail is discarded when the
connection goes back to the pool. -/
def applyEvents (s : RedisState) (buf : List RedisCmd) : List ConnEvent → RedisState × List RedisCmd
  | [] => (s, buf)
  | ConnEvent.send c :: rest => applyEvents s (buf ++ [c]) rest
  | ConnEvent.flush :: rest => applyEvents (buf.foldl applyCmd s) [] rest

/-- The store after replaying a full connection trace. -/
def runEvents (s : RedisState) (evs : List ConnEvent) : RedisState :=
  (applyEvents s [] evs).1

/-- Number of flushes in a connection trace. -/
def countFlush (conn : RedisConn) : Nat :=
  conn.countP fun e => match e with | ConnEvent.flush => true | _ => false

/-- Go `strings.Split(s, "\n")` over the characters: accumulate the
current segment, cut at each newline.  Always yields at least one
segment (Go's `strings.Split` with a non-empty separator never returns
an empty slice). -/
def splitLinesAux : List Char → List Char → List String
  | [], acc => [String.mk acc.reverse]
  | c :: cs, acc =>
    if c = '\n' then String.mk acc.reverse :: splitLinesAux cs []
    else splitLinesAux cs (c :: acc)

/-- `strings.Split(s, "\n")` as used on `debug.Stack()` in `run`. -/
def splitLines (s : String) : List String := splitLinesAux s.data []

/-- Go `fmt` rendering of an `[]interface\x7b\x7d` argument slice with `%v`:
`[a b c]`. -/
def renderArgs (args : List String) : String :=
  "[" ++ String.intercalate " " args ++ "]"

/-- Result of running a work function: returns nil, returns an error,
or panics (carrying `fmt.Sprint(r)` of the recovered value). -/
inductive WorkOutcome
  | ok
  | err (e : GoError)
  | panicked (rendered : String)
deriving DecidableEq, Repr

/-- A registered work function `func(queue string, args ...interface\x7b\x7d) error`,
observed through its outcome. -/
def workerFunc := String → List String → WorkOutcome

/-- The package-level `workers` registry: work-function identifier to
registered work function, `none` when no worker is registered. -/
def Registry := String → Option workerFunc

/-- External oracles one job execution consumes: the clock, the raw
`debug.Stack()` text, the `json.Marshal` results for the two records
(`none` = marshal error), and the success of each `GetConn` call site
in `run` together with the pool's error text. -/
structure Env where
  now : Nat
  stack : String
  marshalWork : work → Option String
  marshalFailure : failure → Option String
  startConnAvail : Bool
  finishConnAvail : Bool
  startConnErrMsg : String

/-- The key `start` writes: `fmt.Sprintf("%sworker:%s", workerSettings.Namespace, w)`
— the worker value rendered with `%s`. -/
def startHeartbeatKey (ws : WorkerSettings) (w : worker) : String :=
  ws.Namespace ++ "worker:" ++ w.String

/-- The key `finish` deletes:
`fmt.Sprintf("%sworker:%s", workerSettings.Namespace, w.process.String())`. -/
def finishHeartbeatKey (ws : WorkerSettings) (w : worker) : String :=
  ws.Namespace ++ "worker:" ++ w.process.String

/-- `fmt.Sprintf("%sfailed", workerSettings.Namespace)` in `fail`. -/
def failedKey (ws : WorkerSettings) : String := ws.Namespace ++ "failed"

/-- `fmt.Sprintf("%sstat:processed", workerSettings.Namespace)` in `succeed`. -/
def statProcessedKey (ws : WorkerSettings) : String := ws.Namespace ++ "stat:processed"

/-- `fmt.Sprintf("%sstat:processed:%s", workerSettings.Namespace, w)` in `succeed`. -/
def statProcessedWorkerKey (ws : WorkerSettings) (w : worker) : String :=
  ws.Namespace ++ "stat:processed:" ++ w.String

/-- Modelled from the spec: `process.fail` is called from `worker.fail`
but its body lives outside `src/`.  The spec calls it a worker-level
"mark as no-longer-busy" step reached by delegation from report-failure;
like the surrounding reporting commands it is buffered, not flushed. -/
def process.fail (p : process) (conn : RedisConn) : RedisConn × Option GoError :=
  (conn.Send (RedisCmd.markNotBusy p.String), none)

/-- `worker.start(conn, job)` from `worker.go`: build the `work` record
with the current time, marshal it (returning the marshal error if it
fails), buffer `SET <ns>worker:<w> buffer`, and flush. -/
def worker.start (ws : WorkerSettings) (env : Env) (w : worker) (conn : RedisConn)
    (job : Job) : RedisConn × Option GoError :=
  let wk : work := { Queue := job.Queue, RunAt := env.now, Payload := job.Payload }
  match env.marshalWork wk with
  | none => (conn, some (GoError.plain "json: marshal error"))
  | some buffer =>
    let conn := conn.Send (RedisCmd.set (startHeartbeatKey ws w) buffer)
    (conn.Flush, none)

/-- The `failure` record `worker.fail` builds: backtrace taken from the
error when it is a `*WorkerError` (else empty), `Exception` fixed to
`"Error"`, message from `err.Error()`. -/
def failureRecord (env : Env) (w : worker) (job : Job) (err : GoError) : failure :=
  let backtrace : List String :=
    match err with
    | GoError.workerError typedError => typedError.Backtrace
    | GoError.plain _ => []
  { FailedAt := env.now
    Payload := job.Payload
    Exception := "Error"
    Error := err.Error
    Backtrace := backtrace
    Worker := w.String
    Queue := job.Queue }

/-- `worker.fail(conn, job, err)` from `worker.go`: build the failure
record, marshal it (returning the marshal error if it fails), buffer
`RPUSH <ns>failed buffer`, then delegate to `process.fail`. -/
def worker.fail (ws : WorkerSettings) (env : Env) (w : worker) (conn : RedisConn)
    (job : Job) (err : GoError) : RedisConn × Option GoError :=
  match env.marshalFailure (failureRecord env w job err) with
  | none => (conn, some (GoError.plain "json: marshal error"))
  | some buffer =>
    let conn := conn.Send (RedisCmd.rpush (failedKey ws) buffer)
    process.fail w.process conn

/-- `worker.succeed(conn, job)` from `worker.go`: buffer `INCR` on the
global and the per-identity processed counters; never fails. -/
def worker.succeed (ws : WorkerSettings) (w : worker) (conn : RedisConn)
    (_job : Job) : RedisConn × Option GoError :=
  let conn := conn.Send (RedisCmd.incr (statProcessedKey ws))
  let conn := conn.Send (RedisCmd.incr (statProcessedWorkerKey ws w))
  (conn, none)

/-- `worker.finish(conn, job, err)` from `worker.go`: dispatch to `fail`
(err non-nil) or `succeed` (err nil), ignoring their return value;
either way buffer `DEL <ns>worker:<w.process.String()>` and flush. -/
def worker.finish (ws : WorkerSettings) (env : Env) (w : worker) (conn : RedisConn)
    (job : Job) (err : Option GoError) : RedisConn × Option GoError :=
  let conn :=
    match err with
    | some e => (worker.fail ws env w conn job e).1
    | none => (worker.succeed ws w conn job).1
  let conn := conn.Send (RedisCmd.del (finishHeartbeatKey ws w))
  (conn.Flush, none)

/-- What one `worker.run` did, observably: the traces of the connection
acquired for the start report and of the one acquired (in the deferred
block) for the finish report, whether the work function was invoked,
whether `finish` was reached, and the `err` value the deferred block
held when it ran. -/
structure RunResult where
  startEvents : RedisConn
  finishEvents : RedisConn
  workInvoked : Bool
  finishCalled : Bool
  finalErr : Option GoError
deriving DecidableEq, Repr

/-- `worker.run(job, workerFunc)` from `worker.go`.  Control flow of the
source: `var err error`; a first `defer` acquires a connection and calls
`finish(conn, job, err)` (skipped with a critical log if that `GetConn`
fails); a second `defer` recovers a panic into
`NewWorkerError(fmt.Sprint(r), strings.Split(debug.Stack(), "\n"))`
stored in `err`; then `conn, err := GetConn()` — `err` here is the same
variable (Go redeclares only `conn`, both statements sit in the function
block), so a failed acquisition leaves its error in `err`, returns, and
the deferred `finish` still runs with that error; on success `start` is
called (its error discarded) and `err = workerFunc(queue, args...)`. -/
def worker.run (ws : WorkerSettings) (env : Env) (w : worker) (job : Job)
    (f : workerFunc) : RunResult :=
  if env.startConnAvail then
    let startConn := (worker.start ws env w ([] : RedisConn) job).1
    let err : Option GoError :=
      match f job.Queue job.Payload.Args with
      | WorkOutcome.ok => none
      | WorkOutcome.err e => some e
      | WorkOutcome.panicked r =>
        some (GoError.workerError (NewWorkerError r (splitLines env.stack)))
    if env.finishConnAvail then
      { startEvents := startConn
        finishEvents := (worker.finish ws env w ([] : RedisConn) job err).1
        workInvoked := true, finishCalled := true, finalErr := err }
    else
      { startEvents := startConn, finishEvents := []
        workInvoked := true, finishCalled := false, finalErr := err }
  else
    let err : Option GoError := some (GoError.plain env.startConnErrMsg)
    if env.finishConnAvail then
      { startEvents := []
        finishEvents := (worker.finish ws env w ([] : RedisConn) job err).1
        workInvoked := false, finishCalled := true, finalErr := err }
    else
      { startEvents := [], finishEvents := []
        workInvoked := false, finishCalled := false, finalErr := err }

/-- The store after one `run`: replay the start-stage connection, then
the finish-stage connection (each acquired fresh from the pool). -/
def runStore (s : RedisState) (r : RunResult) : RedisState :=
  runEvents (runEvents s r.startEvents) r.finishEvents

/-- The message `work`'s unregistered-work-type branch builds:
`fmt.Sprintf("No worker for %s in queue %s with args %v", ...)`. -/
def noWorkerMsg (job : Job) : String :=
  "No worker for " ++ job.Payload.Class ++ " in queue " ++ job.Queue ++
    " with args " ++ renderArgs job.Payload.Args

/-- Per-job oracle inputs for the drain loop: the `Env` that job's
`run`/`finish` consumes, plus the success of the `GetConn` in the
unregistered-work-type branch of `work`. -/
structure JobEnv where
  runEnv : Env
  noHandlerConnAvail : Bool

/-- What the drain loop did with one received job. -/
inductive JobOutcome
  | ran (r : RunResult)
  | noHandler (finishEvents : RedisConn)
  | noHandlerConnFail
deriving Repr

/-- The `for job := range jobs` loop of `worker.work`, over the finite
sequence of jobs delivered before the channel closed.  Registered
class: `run` (which never returns), then next job.  Unregistered class:
acquire a connection; on failure the branch does `return`, ending the
loop with the remaining jobs unread; on success `finish` with the
`errors.New(errorLog)` error, then next job.  Returns the per-job
outcomes and whether the loop ended by exhausting the channel (`true`)
rather than by that early `return` (`false`). -/
def drainLoop (ws : WorkerSettings) (registry : Registry)
    (w : worker) : List (Job × JobEnv) → List JobOutcome × Bool
  | [] => ([], true)
  | (job, jenv) :: rest =>
    match registry job.Payload.Class with
    | some f =>
      let r := worker.run ws jenv.runEnv w job f
      let next := drainLoop ws registry w rest
      (JobOutcome.ran r :: next.1, next.2)
    | none =>
      if jenv.noHandlerConnAvail then
        let fin := (worker.finish ws jenv.runEnv w ([] : RedisConn) job
          (some (GoError.plain (noWorkerMsg job)))).1
        let next := drainLoop ws registry w rest
        (JobOutcome.noHandler fin :: next.1, next.2)
      else
        ([JobOutcome.noHandlerConnFail], false)

/-- `worker.work(jobs, monitor)` from `worker.go`, at the level the
claims observe: the initial `GetConn` for the worker-alive announce
(`w.open`) aborts the whole method on failure — `none`, the drain
goroutine is never started; otherwise the drain loop processes the
delivered jobs.  (`monitor.Add`/`Done` and `w.open`/`w.close` are
pool bookkeeping outside the claims.) -/
def worker.work (ws : WorkerSettings) (registry : Registry)
    (w : worker) (openConnAvail : Bool) (jobs : List (Job × JobEnv)) :
    Option (List JobOutcome × Bool) :=
  if openConnAvail then some (drainLoop ws registry w jobs) else none

/-! ### Concrete fixtures (used by counterexamples and witnesses) -/

/-- Concrete settings, the spec's store wire contract prefix. -/
def ws0 : WorkerSettings := { Namespace := "resque:" }

/-- Concrete worker with identity `"w1"` (the spec's scenario). -/
def w0 : worker := { process := { id := "w1" } }

/-- The spec's scenario job `(queue "default", workType "Echo", args ["hi"])`. -/
def job0 : Job := { Queue := "default", Payload := { Class := "Echo", Args := ["hi"] } }

/-- A concrete oracle environment: marshalling succeeds (the failure
record serializes to its message field for observability), both
`GetConn` call sites in `run` succeed. -/
def env0 : Env :=
  { now := 7
    stack := "goroutine 1 [running]:\nmain.go:1"
    marshalWork := fun _ => some "workjson"
    marshalFailure := fun f => some f.Error
    startConnAvail := true
    finishConnAvail := true
    startConnErrMsg := "conn refused" }

/-- Like `env0` but the start-stage `GetConn` in `run` fails. -/
def env2 : Env := { env0 with startConnAvail := false }

/-- Like `env0` but `json.Marshal` of the failure record fails. -/
def envMF : Env := { env0 with marshalFailure := fun _ => none }

/-- The empty store. -/
def s0 : RedisState :=
  { strings := fun _ => none, counters := fun _ => 0, lists := fun _ => [] }

/-- Per-job oracles with the unregistered-branch `GetConn` succeeding. -/
def jenvOK : JobEnv := { runEnv := env0, noHandlerConnAvail := true }

/-- Per-job oracles with the unregistered-branch `GetConn` failing. -/
def jenvBad : JobEnv := { runEnv := env0, noHandlerConnAvail := false }

/-! ### Helper lemmas -/

lemma countFlush_append (a b : RedisConn) :
    countFlush (a ++ b) = countFlush a + countFlush b := by
  simp [countFlush, List.countP_append]

lemma countFlush_Send (conn : RedisConn) (c : RedisCmd) :
    countFlush (conn.Send c) = countFlush conn := by
  simp [RedisConn.Send, countFlush_append, countFlush]

lemma countFlush_Flush (conn : RedisConn) :
    countFlush conn.Flush = countFlush conn + 1 := by
  simp [RedisConn.Flush, countFlush_append, countFlush]

lemma countFlush_processFail (p : process) (conn : RedisConn) :
    countFlush (process.fail p conn).1 = countFlush conn := by
  simp [process.fail, countFlush_Send]

lemma countFlush_fail (ws : WorkerSettings) (env : Env) (w : worker) (conn : RedisConn)
    (job : Job) (e : GoError) :
    countFlush (worker.fail ws env w conn job e).1 = countFlush conn := by
  unfold worker.fail
  cases h : env.marshalFailure (failureRecord env w job e) with
  | none => rfl
  | some buffer => simp [countFlush_processFail, countFlush_Send]

lemma countFlush_succeed (ws : WorkerSettings) (w : worker) (conn : RedisConn) (job : Job) :
    countFlush (worker.succeed ws w conn job).1 = countFlush conn := by
  simp [worker.succeed, countFlush_Send]

lemma splitLinesAux_ne_nil (l acc : List Char) : splitLinesAux l acc ≠ [] := by
  induction l generalizing acc with
  | nil => simp [splitLinesAux]
  | cons c cs ih =>
    simp only [splitLinesAux]
    split
    · simp
    · exact ih _

lemma splitLines_ne_nil (s : String) : splitLines s ≠ [] :=
  splitLinesAux_ne_nil s.data []

/-! ### Claims -/

/-- C4: `finish(job, err)` calls `fail` when `err` is non-nil and
`succeed` when it is nil; in either case it then buffers the `DEL` of
the worker's heartbeat key and flushes the connection, adding exactly
one flush — the whole terminal outcome goes out as one pipelined
exchange. -/
theorem C4_finish_terminal (ws : WorkerSettings) (env : Env) (w : worker)
    (conn : RedisConn) (job : Job) :
    (∀ e, worker.finish ws env w conn job (some e) =
      (((worker.fail ws env w conn job e).1.Send
          (RedisCmd.del (finishHeartbeatKey ws w))).Flush, none)) ∧
    worker.finish ws env w conn job none =
      (((worker.succeed ws w conn job).1.Send
          (RedisCmd.del (finishHeartbeatKey ws w))).Flush, none) ∧
    ∀ o, countFlush (worker.finish ws env w conn job o).1 = countFlush conn + 1 := by
  refine ⟨fun e => rfl, rfl, fun o => ?_⟩
  cases o with
  | none => simp [worker.finish, countFlush_Flush, countFlush_Send, countFlush_succeed]
  | some e => simp [worker.finish, countFlush_Flush, countFlush_Send, countFlush_fail]

/-- C8 as stated is false: `start` does flush the connection itself
(`return conn.Flush()` is its last line).  At a concrete job the trace
`start` leaves on a fresh connection contains a flush event. -/
theorem C8_counterexample :
    ConnEvent.flush ∈ (worker.start ws0 env0 w0 ([] : RedisConn) job0).1 := by decide

/-- C8 amended: `announce-start` buffers the `SET` of the serialized
Work Record under the heartbeat key and then itself flushes the
connection (exactly one flush); the flush is not left to the caller. -/
theorem C8_start_flushes (ws : WorkerSettings) (env : Env) (w : worker)
    (conn : RedisConn) (job : Job) (buf : String)
    (h : env.marshalWork { Queue := job.Queue, RunAt := env.now, Payload := job.Payload }
      = some buf) :
    worker.start ws env w conn job =
      ((conn.Send (RedisCmd.set (startHeartbeatKey ws w) buf)).Flush, none) ∧
    countFlush (worker.start ws env w conn job).1 = countFlush conn + 1 := by
  constructor
  · simp [worker.start, h]
  · simp [worker.start, h, countFlush_Flush, countFlush_Send]

/-- Witness for C8: the amended statement at the concrete fixtures. -/
theorem C8_witness :
    worker.start ws0 env0 w0 ([] : RedisConn) job0 =
      (RedisConn.Flush (RedisConn.Send ([] : RedisConn)
        (RedisCmd.set (startHeartbeatKey ws0 w0) "workjson")), none) ∧
    countFlush (worker.start ws0 env0 w0 ([] : RedisConn) job0).1 =
      countFlush ([] : RedisConn) + 1 :=
  C8_start_flushes ws0 env0 w0 ([] : RedisConn) job0 "workjson" rfl

/-- C9: the heartbeat key `start` writes (formatting the worker value
itself with `%s`) and the heartbeat key `finish` deletes (formatting
`w.process.String()`) are the same string `<ns>worker:<identity>`:
`fmt`'s `%s` resolves to the `String()` method promoted from the
embedded `process`, so both renderings are the identity. -/
theorem C9_heartbeat_keys_agree (ws : WorkerSettings) (w : worker) :
    startHeartbeatKey ws w = finishHeartbeatKey ws w ∧
    startHeartbeatKey ws w = ws.Namespace ++ "worker:" ++ w.process.id :=
  ⟨rfl, rfl⟩

/-- C2 as stated is false.  In `run`, `conn, err := GetConn()` reuses
the `err` declared by `var err error` (both sit in the function block,
so Go redeclares only `conn`), so when the start-stage acquisition
fails the deferred finish block still runs holding that connection
error; if its own `GetConn` succeeds, `finish` reports the job as
failed.  Concretely: with the start-stage connection unavailable and
the finish-stage one available, a Failure Record carrying the pool's
error text is appended to `<ns>failed` — the job is not silently
dropped and the store is written. -/
theorem C2_counterexample :
    (worker.run ws0 env2 w0 job0 (fun _ _ => WorkOutcome.ok)).finishCalled = true ∧
    (runStore s0 (worker.run ws0 env2 w0 job0 (fun _ _ => WorkOutcome.ok))).lists
      (failedKey ws0) = ["conn refused"] := by decide

/-- C2 amended: if the store-connection acquisition at step 1 of `run`
fails, the work function is never invoked and the start-stage
connection carries no events (no heartbeat); but the deferred finish
step still runs with the acquisition error in `err`: when the
finish-stage acquisition also fails nothing at all is reported (the
silent drop), and when it succeeds `finish` is called — with the
connection error — so a Failure Record is written for the job. -/
theorem C2_start_conn_failure (ws : WorkerSettings) (env : Env) (w : worker)
    (job : Job) (f : workerFunc) (h : env.startConnAvail = false) :
    (worker.run ws env w job f).workInvoked = false ∧
    (worker.run ws env w job f).startEvents = [] ∧
    (worker.run ws env w job f).finalErr = some (GoError.plain env.startConnErrMsg) ∧
    (worker.run ws env w job f).finishCalled = env.finishConnAvail ∧
    (env.finishConnAvail = false → (worker.run ws env w job f).finishEvents = []) ∧
    (env.finishConnAvail = true → (worker.run ws env w job f).finishEvents =
      (worker.finish ws env w ([] : RedisConn) job
        (some (GoError.plain env.startConnErrMsg))).1) := by
  cases hf : env.finishConnAvail <;> simp [worker.run, h, hf]

/-- Witness for C2's amended statement at the concrete fixtures. -/
theorem C2_witness :
    (worker.run ws0 env2 w0 job0 (fun _ _ => WorkOutcome.ok)).workInvoked = false ∧
    (worker.run ws0 env2 w0 job0 (fun _ _ => WorkOutcome.ok)).startEvents = [] ∧
    (worker.run ws0 env2 w0 job0 (fun _ _ => WorkOutcome.ok)).finalErr =
      some (GoError.plain env2.startConnErrMsg) ∧
    (worker.run ws0 env2 w0 job0 (fun _ _ => WorkOutcome.ok)).finishCalled =
      env2.finishConnAvail ∧
    (env2.finishConnAvail = false →
      (worker.run ws0 env2 w0 job0 (fun _ _ => WorkOutcome.ok)).finishEvents = []) ∧
    (env2.finishConnAvail = true →
      (worker.run ws0 env2 w0 job0 (fun _ _ => WorkOutcome.ok)).finishEvents =
      (worker.finish ws0 env2 w0 ([] : RedisConn) job0
        (some (GoError.plain env2.startConnErrMsg))).1) :=
  C2_start_conn_failure ws0 env2 w0 job0 (fun _ _ => WorkOutcome.ok) rfl

/-- C10: when marshalling the Failure Record fails inside `fail`, the
`fail` call leaves the connection untouched (no `RPUSH`, no delegation)
and returns the marshal error; `finish` discards that error and still
buffers the heartbeat `DEL` and flushes, so after the replay the
heartbeat key is gone while the failure list is unchanged. -/
theorem C10_marshal_failure_cleanup (ws : WorkerSettings) (env : Env) (w : worker)
    (conn : RedisConn) (job : Job) (e : GoError) (s : RedisState)
    (hm : env.marshalFailure (failureRecord env w job e) = none) :
    (worker.fail ws env w conn job e).1 = conn ∧
    worker.finish ws env w conn job (some e) =
      ((conn.Send (RedisCmd.del (finishHeartbeatKey ws w))).Flush, none) ∧
    (runEvents s (worker.finish ws env w ([] : RedisConn) job (some e)).1).strings
      (finishHeartbeatKey ws w) = none ∧
    (runEvents s (worker.finish ws env w ([] : RedisConn) job (some e)).1).lists
      (failedKey ws) = s.lists (failedKey ws) := by
  have hfail : ∀ c : RedisConn, (worker.fail ws env w c job e).1 = c := by
    intro c; simp [worker.fail, hm]
  refine ⟨hfail conn, ?_, ?_, ?_⟩
  · simp [worker.finish, hfail]
  · simp [worker.finish, hfail, RedisConn.Send, RedisConn.Flush, runEvents,
      applyEvents, applyCmd]
  · simp [worker.finish, hfail, RedisConn.Send, RedisConn.Flush, runEvents,
      applyEvents, applyCmd]

/-- Witness for C10 at the concrete fixtures (marshal oracle fails). -/
theorem C10_witness :
    (worker.fail ws0 envMF w0 ([] : RedisConn) job0 (GoError.plain "boom")).1 = [] ∧
    worker.finish ws0 envMF w0 ([] : RedisConn) job0 (some (GoError.plain "boom")) =
      ((RedisConn.Send ([] : RedisConn)
        (RedisCmd.del (finishHeartbeatKey ws0 w0))).Flush, none) ∧
    (runEvents s0 (worker.finish ws0 envMF w0 ([] : RedisConn) job0
      (some (GoError.plain "boom"))).1).strings (finishHeartbeatKey ws0 w0) = none ∧
    (runEvents s0 (worker.finish ws0 envMF w0 ([] : RedisConn) job0
      (some (GoError.plain "boom"))).1).lists (failedKey ws0) =
      s0.lists (failedKey ws0) :=
  C10_marshal_failure_cleanup ws0 envMF w0 ([] : RedisConn) job0 (GoError.plain "boom")
    s0 rfl

/-- C1 as stated is false.  The unregistered-work-type branch of
`work`'s drain loop does `return` when its own `GetConn` fails (lines
125–128), which ends the drain goroutine: a connection-unavailable
error there stops the loop even though the intake channel is still
open and the worker-alive announce succeeded.  With an empty registry
and two queued jobs, the first of which hits that connection failure,
only one job is ever looked at and the loop ends without reaching
channel closure. -/
theorem C1_counterexample :
    (drainLoop ws0 (fun _ => none) w0 [(job0, jenvBad), (job0, jenvOK)]).1.length = 1 ∧
    (drainLoop ws0 (fun _ => none) w0 [(job0, jenvBad), (job0, jenvOK)]).2 = false := by
  decide

/-- C1 amended: the drain loop survives all four error kinds arising
inside `run` (connection failures at either `GetConn` of `run`,
ordinary work errors, recovered panics) and survives an unregistered
work-type whose finish-stage connection is available; it stops on
intake-channel closure, on a connection-acquisition failure at the
worker-alive announce step of `work` (the drain loop then never
starts), and additionally on a connection-acquisition failure in the
unregistered-work-type branch.  Formally: if every unregistered job in
the intake sequence finds a connection for its finish step, every
delivered job is processed and the loop ends by channel closure. -/
theorem C1_loop_continuation (ws : WorkerSettings) (registry : Registry) (w : worker)
    (jobs : List (Job × JobEnv))
    (h : ∀ p ∈ jobs, registry p.1.Payload.Class = none → p.2.noHandlerConnAvail = true) :
    (drainLoop ws registry w jobs).1.length = jobs.length ∧
    (drainLoop ws registry w jobs).2 = true ∧
    worker.work ws registry w false jobs = none := by
  refine ⟨?_, ?_, rfl⟩ <;>
  · induction jobs with
    | nil => simp [drainLoop]
    | cons p rest ih =>
      obtain ⟨job, jenv⟩ := p
      have ih2 := ih (fun q hq => h q (List.mem_cons_of_mem _ hq))
      cases hreg : registry job.Payload.Class with
      | some f => simpa [drainLoop, hreg] using ih2
      | none =>
        have hc : jenv.noHandlerConnAvail = true :=
          h ⟨job, jenv⟩ (List.mem_cons_self _ _) hreg
        simpa [drainLoop, hreg, hc] using ih2

/-- A registry with a panicking handler and an erroring handler. -/
def reg1 : Registry := fun c =>
  if c = "Boom" then some (fun _ _ => WorkOutcome.panicked "boom")
  else if c = "Err" then some (fun _ _ => WorkOutcome.err (GoError.plain "e"))
  else none

/-- A three-job intake: a panicking job, an erroring job and an
unregistered one whose finish-stage connection is available. -/
def jobs1 : List (Job × JobEnv) :=
  [({ Queue := "q", Payload := { Class := "Boom", Args := [] } }, jenvOK),
   ({ Queue := "q", Payload := { Class := "Err", Args := [] } }, jenvOK),
   ({ Queue := "q", Payload := { Class := "Nope", Args := [] } }, jenvOK)]

/-- Witness for C1's amended statement: on `jobs1` (a recovered panic,
an ordinary work error, an unregistered work-type with its connection
available) all three jobs are processed and the loop ends by channel
closure. -/
theorem C1_witness :
    (drainLoop ws0 reg1 w0 jobs1).1.length = jobs1.length ∧
    (drainLoop ws0 reg1 w0 jobs1).2 = true ∧
    worker.work ws0 reg1 w0 false jobs1 = none :=
  C1_loop_continuation ws0 reg1 w0 jobs1
    (by intro p hp; fin_cases hp <;> simp [reg1, jenvOK])

/-- C7: for a non-nil error, `fail` builds a Failure Record whose
backtrace is the error's backtrace when it is a `*WorkerError` and
empty otherwise, whose exception kind is the fixed string `"Error"`,
buffers exactly one `RPUSH` of the serialized record onto `<ns>failed`,
and then delegates to the worker-level `process.fail` step — all
without flushing the connection. -/
theorem C7_fail_reports (ws : WorkerSettings) (env : Env) (w : worker)
    (conn : RedisConn) (job : Job) (err : GoError) (buf : String)
    (hm : env.marshalFailure (failureRecord env w job err) = some buf) :
    worker.fail ws env w conn job err =
      process.fail w.process (conn.Send (RedisCmd.rpush (failedKey ws) buf)) ∧
    (failureRecord env w job err).Exception = "Error" ∧
    (failureRecord env w job err).Error = err.Error ∧
    (∀ e, err = GoError.workerError e → (failureRecord env w job err).Backtrace = e.Backtrace) ∧
    (∀ m, err = GoError.plain m → (failureRecord env w job err).Backtrace = []) ∧
    countFlush (worker.fail ws env w conn job err).1 = countFlush conn := by
  refine ⟨?_, ?_, rfl, ?_, ?_, countFlush_fail ws env w conn job err⟩
  · simp [worker.fail, hm]
  · cases err <;> rfl
  · rintro e rfl; rfl
  · rintro m rfl; rfl

/-- Witness for C7 at concrete fixtures, with a `*WorkerError` carrying
a backtrace. -/
theorem C7_witness :
    worker.fail ws0 env0 w0 ([] : RedisConn) job0
        (GoError.workerError (NewWorkerError "oops" ["line1", "line2"])) =
      process.fail w0.process (RedisConn.Send ([] : RedisConn)
        (RedisCmd.rpush (failedKey ws0) "oops")) ∧
    (failureRecord env0 w0 job0
      (GoError.workerError (NewWorkerError "oops" ["line1", "line2"]))).Exception =
      "Error" ∧
    (failureRecord env0 w0 job0
      (GoError.workerError (NewWorkerError "oops" ["line1", "line2"]))).Error =
      (GoError.workerError (NewWorkerError "oops" ["line1", "line2"])).Error ∧
    (∀ e, GoError.workerError (NewWorkerError "oops" ["line1", "line2"]) =
        GoError.workerError e →
      (failureRecord env0 w0 job0
        (GoError.workerError (NewWorkerError "oops" ["line1", "line2"]))).Backtrace =
        e.Backtrace) ∧
    (∀ m, GoError.workerError (NewWorkerError "oops" ["line1", "line2"]) =
        GoError.plain m →
      (failureRecord env0 w0 job0
        (GoError.workerError (NewWorkerError "oops" ["line1", "line2"]))).Backtrace =
        []) ∧
    countFlush (worker.fail ws0 env0 w0 ([] : RedisConn) job0
      (GoError.workerError (NewWorkerError "oops" ["line1", "line2"]))).1 =
      countFlush ([] : RedisConn) :=
  C7_fail_reports ws0 env0 w0 ([] : RedisConn) job0
    (GoError.workerError (NewWorkerError "oops" ["line1", "line2"])) "oops" rfl

/-- The global and per-identity processed-counter keys differ: their
lengths already disagree (`stat:processed` vs `stat:processed:<id>`). -/
lemma statKeys_ne (ws : WorkerSettings) (w : worker) :
    statProcessedKey ws ≠ statProcessedWorkerKey ws w := by
  intro h
  have hl := congrArg String.length h
  rw [statProcessedKey, statProcessedWorkerKey, String.length_append,
    String.length_append, String.length_append] at hl
  have h14 : ("stat:processed" : String).length = 14 := by decide
  have h15 : ("stat:processed:" : String).length = 15 := by decide
  omega

/-- Store effect of `finish` on the success path (fresh connection):
both processed counters go up by exactly one, the heartbeat key is
deleted, the failure list is untouched. -/
lemma finish_none_store (ws : WorkerSettings) (env : Env) (w : worker) (job : Job)
    (s : RedisState) :
    (runEvents s (worker.finish ws env w ([] : RedisConn) job none).1).counters
      (statProcessedKey ws) = s.counters (statProcessedKey ws) + 1 ∧
    (runEvents s (worker.finish ws env w ([] : RedisConn) job none).1).counters
      (statProcessedWorkerKey ws w) = s.counters (statProcessedWorkerKey ws w) + 1 ∧
    (runEvents s (worker.finish ws env w ([] : RedisConn) job none).1).strings
      (finishHeartbeatKey ws w) = none ∧
    (runEvents s (worker.finish ws env w ([] : RedisConn) job none).1).lists
      (failedKey ws) = s.lists (failedKey ws) := by
  have hne := statKeys_ne ws w
  simp [worker.finish, worker.succeed, RedisConn.Send, RedisConn.Flush, runEvents,
    applyEvents, applyCmd, hne, Ne.symm hne]

/-- Store effect of `finish` on the failure path when the record
marshals to `buf` (fresh connection): exactly `buf` is appended to the
failure list, the heartbeat key is deleted, counters are untouched. -/
lemma finish_fail_store (ws : WorkerSettings) (env : Env) (w : worker) (job : Job)
    (e : GoError) (buf : String) (s : RedisState)
    (hm : env.marshalFailure (failureRecord env w job e) = some buf) :
    (runEvents s (worker.finish ws env w ([] : RedisConn) job (some e)).1).lists
      (failedKey ws) = s.lists (failedKey ws) ++ [buf] ∧
    (runEvents s (worker.finish ws env w ([] : RedisConn) job (some e)).1).strings
      (finishHeartbeatKey ws w) = none ∧
    (runEvents s (worker.finish ws env w ([] : RedisConn) job (some e)).1).counters =
      s.counters := by
  simp [worker.finish, worker.fail, hm, process.fail, RedisConn.Send, RedisConn.Flush,
    runEvents, applyEvents, applyCmd]

/-- `start` never touches counters: its only command is a `SET`. -/
lemma start_store_counters (ws : WorkerSettings) (env : Env) (w : worker) (job : Job)
    (s : RedisState) :
    (runEvents s (worker.start ws env w ([] : RedisConn) job).1).counters =
      s.counters := by
  rcases h : env.marshalWork { Queue := job.Queue, RunAt := env.now, Payload := job.Payload }
    with _ | buf <;>
  simp [worker.start, h, RedisConn.Send, RedisConn.Flush, runEvents, applyEvents, applyCmd]

/-- `run` on the happy path (both connections available, work function
returns nil): the start trace and the finish trace pinned down. -/
lemma run_ok_events (ws : WorkerSettings) (env : Env) (w : worker) (job : Job)
    (f : workerFunc) (hs : env.startConnAvail = true) (hf : env.finishConnAvail = true)
    (hok : f job.Queue job.Payload.Args = WorkOutcome.ok) :
    worker.run ws env w job f =
      { startEvents := (worker.start ws env w ([] : RedisConn) job).1
        finishEvents := (worker.finish ws env w ([] : RedisConn) job none).1
        workInvoked := true, finishCalled := true, finalErr := none } := by
  simp [worker.run, hs, hf, hok]

/-- A no-op succeeding work function and a registry mapping `"Echo"`
to it (the spec's success scenario). -/
def fOk : workerFunc := fun _ _ => WorkOutcome.ok

def regOk : Registry := fun c => if c = "Echo" then some fOk else none

/-- A panicking work function and a registry mapping `"Echo"` to it. -/
def fPanic : workerFunc := fun _ _ => WorkOutcome.panicked "boom"

def regPanic : Registry := fun c => if c = "Echo" then some fPanic else none

/-- The empty registry. -/
def regNone : Registry := fun _ => none

/-- C5: a job with a registered work-type whose work function returns
nil bumps the global and the per-identity processed counters by exactly
one each, leaves the heartbeat key absent after `finish`, and is
processed by the drain loop through `run`. -/
theorem C5_success_counters (ws : WorkerSettings) (env : Env) (w : worker) (job : Job)
    (f : workerFunc) (registry : Registry) (jenv : JobEnv) (rest : List (Job × JobEnv))
    (s : RedisState)
    (hreg : registry job.Payload.Class = some f)
    (hok : f job.Queue job.Payload.Args = WorkOutcome.ok)
    (hs : env.startConnAvail = true) (hf : env.finishConnAvail = true)
    (hj : jenv.runEnv = env) :
    (runStore s (worker.run ws env w job f)).counters (statProcessedKey ws) =
      s.counters (statProcessedKey ws) + 1 ∧
    (runStore s (worker.run ws env w job f)).counters (statProcessedWorkerKey ws w) =
      s.counters (statProcessedWorkerKey ws w) + 1 ∧
    (runStore s (worker.run ws env w job f)).strings (finishHeartbeatKey ws w) = none ∧
    (drainLoop ws registry w ((job, jenv) :: rest)).1 =
      JobOutcome.ran (worker.run ws env w job f) :: (drainLoop ws registry w rest).1 := by
  have hrun := run_ok_events ws env w job f hs hf hok
  have h1 := finish_none_store ws env w job
    (runEvents s (worker.start ws env w ([] : RedisConn) job).1)
  have h2 := start_store_counters ws env w job s
  refine ⟨?_, ?_, ?_, ?_⟩
  · rw [runStore, hrun]
    exact (h1.1).trans (congrArg (· + 1) (congrFun h2 (statProcessedKey ws)))
  · rw [runStore, hrun]
    exact (h1.2.1).trans (congrArg (· + 1) (congrFun h2 (statProcessedWorkerKey ws w)))
  · rw [runStore, hrun]
    exact h1.2.2.1
  · subst hj
    simp [drainLoop, hreg]

/-- Witness for C5: worker `w1`, job `(default, Echo, [hi])`, registry
mapping `Echo` to a no-op success handler, empty store. -/
theorem C5_witness :
    (runStore s0 (worker.run ws0 env0 w0 job0 fOk)).counters (statProcessedKey ws0) =
      s0.counters (statProcessedKey ws0) + 1 ∧
    (runStore s0 (worker.run ws0 env0 w0 job0 fOk)).counters
      (statProcessedWorkerKey ws0 w0) =
      s0.counters (statProcessedWorkerKey ws0 w0) + 1 ∧
    (runStore s0 (worker.run ws0 env0 w0 job0 fOk)).strings
      (finishHeartbeatKey ws0 w0) = none ∧
    (drainLoop ws0 regOk w0 ((job0, jenvOK) :: [])).1 =
      JobOutcome.ran (worker.run ws0 env0 w0 job0 fOk) :: (drainLoop ws0 regOk w0 []).1 :=
  C5_success_counters ws0 env0 w0 job0 fOk regOk jenvOK [] s0 rfl rfl rfl rfl rfl

/-- C3: a panicking work function is converted, inside the per-job
scope, into a Worker-Error whose message is the rendered panic value
and whose backtrace is the (never empty) line-split captured stack;
the deferred finish step is invoked with exactly that error, and the
drain loop goes on to the remaining jobs. -/
theorem C3_panic_normalized (ws : WorkerSettings) (env : Env) (w : worker) (job : Job)
    (f : workerFunc) (r : String) (registry : Registry) (jenv : JobEnv)
    (rest : List (Job × JobEnv))
    (hp : f job.Queue job.Payload.Args = WorkOutcome.panicked r)
    (hs : env.startConnAvail = true) (hf : env.finishConnAvail = true)
    (hreg : registry job.Payload.Class = some f)
    (hj : jenv.runEnv = env) :
    (worker.run ws env w job f).finalErr =
      some (GoError.workerError (NewWorkerError r (splitLines env.stack))) ∧
    (NewWorkerError r (splitLines env.stack)).message = r ∧
    (NewWorkerError r (splitLines env.stack)).Backtrace ≠ [] ∧
    (worker.run ws env w job f).finishCalled = true ∧
    (worker.run ws env w job f).finishEvents =
      (worker.finish ws env w ([] : RedisConn) job
        (some (GoError.workerError (NewWorkerError r (splitLines env.stack))))).1 ∧
    (drainLoop ws registry w ((job, jenv) :: rest)).1 =
      JobOutcome.ran (worker.run ws env w job f) :: (drainLoop ws registry w rest).1 ∧
    (drainLoop ws registry w ((job, jenv) :: rest)).2 = (drainLoop ws registry w rest).2 := by
  have hrun : worker.run ws env w job f =
      { startEvents := (worker.start ws env w ([] : RedisConn) job).1
        finishEvents := (worker.finish ws env w ([] : RedisConn) job
          (some (GoError.workerError (NewWorkerError r (splitLines env.stack))))).1
        workInvoked := true, finishCalled := true
        finalErr := some (GoError.workerError (NewWorkerError r (splitLines env.stack))) } := by
    simp [worker.run, hs, hf, hp]
  refine ⟨by rw [hrun], rfl, splitLines_ne_nil env.stack, by rw [hrun], by rw [hrun],
    ?_, ?_⟩ <;>
  simp [drainLoop, hreg, hj]

/-- Witness for C3: the `Echo` job run by a handler that panics with
rendering `"boom"`, under the concrete oracles. -/
theorem C3_witness :
    (worker.run ws0 env0 w0 job0 fPanic).finalErr =
      some (GoError.workerError (NewWorkerError "boom" (splitLines env0.stack))) ∧
    (NewWorkerError "boom" (splitLines env0.stack)).message = "boom" ∧
    (NewWorkerError "boom" (splitLines env0.stack)).Backtrace ≠ [] ∧
    (worker.run ws0 env0 w0 job0 fPanic).finishCalled = true ∧
    (worker.run ws0 env0 w0 job0 fPanic).finishEvents =
      (worker.finish ws0 env0 w0 ([] : RedisConn) job0
        (some (GoError.workerError (NewWorkerError "boom" (splitLines env0.stack))))).1 ∧
    (drainLoop ws0 regPanic w0 ((job0, jenvOK) :: [])).1 =
      JobOutcome.ran (worker.run ws0 env0 w0 job0 fPanic) ::
        (drainLoop ws0 regPanic w0 []).1 ∧
    (drainLoop ws0 regPanic w0 ((job0, jenvOK) :: [])).2 =
      (drainLoop ws0 regPanic w0 []).2 :=
  C3_panic_normalized ws0 env0 w0 job0 fPanic "boom" regPanic jenvOK [] rfl rfl rfl rfl rfl

/-- C6: a job whose work-type has no registry entry is handled without
invoking any work function (the loop's outcome for it is the
`noHandler` finish, not a `run`), and exactly one record — whose
message carries both the work-type identifier and the queue name — is
appended to the failure list. -/
theorem C6_unregistered_work_type (ws : WorkerSettings) (registry : Registry)
    (w : worker) (job : Job) (jenv : JobEnv) (rest : List (Job × JobEnv))
    (s : RedisState) (buf : String)
    (hreg : registry job.Payload.Class = none)
    (hconn : jenv.noHandlerConnAvail = true)
    (hm : jenv.runEnv.marshalFailure
      (failureRecord jenv.runEnv w job (GoError.plain (noWorkerMsg job))) = some buf) :
    (drainLoop ws registry w ((job, jenv) :: rest)).1 =
      JobOutcome.noHandler (worker.finish ws jenv.runEnv w ([] : RedisConn) job
        (some (GoError.plain (noWorkerMsg job)))).1 :: (drainLoop ws registry w rest).1 ∧
    (runEvents s (worker.finish ws jenv.runEnv w ([] : RedisConn) job
      (some (GoError.plain (noWorkerMsg job)))).1).lists (failedKey ws) =
      s.lists (failedKey ws) ++ [buf] ∧
    (failureRecord jenv.runEnv w job (GoError.plain (noWorkerMsg job))).Error =
      noWorkerMsg job ∧
    job.Payload.Class.data <:+: (noWorkerMsg job).data ∧
    job.Queue.data <:+: (noWorkerMsg job).data := by
  refine ⟨?_, (finish_fail_store ws jenv.runEnv w job _ buf s hm).1, rfl, ?_, ?_⟩
  · simp [drainLoop, hreg, hconn]
  · refine ⟨("No worker for " : String).data,
      (" in queue " ++ job.Queue ++ " with args " ++ renderArgs job.Payload.Args).data, ?_⟩
    simp [noWorkerMsg, String.data_append, List.append_assoc]
  · refine ⟨("No worker for " ++ job.Payload.Class ++ " in queue " : String).data,
      (" with args " ++ renderArgs job.Payload.Args).data, ?_⟩
    simp [noWorkerMsg, String.data_append, List.append_assoc]

/-- Witness for C6: the `Echo` job against the empty registry with the
unregistered-branch connection available; the record marshals to its
message. -/
theorem C6_witness :
    (drainLoop ws0 regNone w0 ((job0, jenvOK) :: [])).1 =
      JobOutcome.noHandler (worker.finish ws0 jenvOK.runEnv w0 ([] : RedisConn) job0
        (some (GoError.plain (noWorkerMsg job0)))).1 :: (drainLoop ws0 regNone w0 []).1 ∧
    (runEvents s0 (worker.finish ws0 jenvOK.runEnv w0 ([] : RedisConn) job0
      (some (GoError.plain (noWorkerMsg job0)))).1).lists (failedKey ws0) =
      s0.lists (failedKey ws0) ++ [noWorkerMsg job0] ∧
    (failureRecord jenvOK.runEnv w0 job0 (GoError.plain (noWorkerMsg job0))).Error =
      noWorkerMsg job0 ∧
    job0.Payload.Class.data <:+: (noWorkerMsg job0).data ∧
    job0.Queue.data <:+: (noWorkerMsg job0).data :=
  C6_unregistered_work_type ws0 regNone w0 job0 jenvOK [] s0 (noWorkerMsg job0)
    rfl rfl rfl
